import Mathlib

/-!
Verification development for the gpu-watch monitoring scripts
(`gpu_watch.py`, `gpu_watch_lite.py`, `gpu_watch_windows.py`).

The rendering and parsing routines of the scripts are embedded as pure
Lean functions.  Values that Python holds as floats are modelled as
exact rationals; Python strings that the parser inspects are modelled
by the `RawField` inductive below.
-/

/-- Python `int(x)` applied to a real number: truncation toward zero. -/
def pyInt (q : ℚ) : Int := if 0 ≤ q then ⌊q⌋ else ⌈q⌉

/-- The three display tiers used throughout the scripts:
`red` = critical, `yellow` = warning, `green` = nominal. -/
inductive Color
  | red
  | yellow
  | green
deriving DecidableEq

/-- The load-tier classification repeated verbatim in `make_bar` and
`make_sparkline` (and for the fan-speed row) in all three scripts:
`"red" if value > 80 else "yellow" if value > 50 else "green"`. -/
def loadColor (value : ℚ) : Color :=
  if value > 80 then Color.red
  else if value > 50 then Color.yellow
  else Color.green

/-- The temperature-tier classification from `create_gpu_panel` /
`GPUCard.update_gpu_info`:
`"red" if temp > 80 else "yellow" if temp > 65 else "green"`. -/
def tempColor (temp : ℚ) : Color :=
  if temp > 80 then Color.red
  else if temp > 65 then Color.yellow
  else Color.green

/-- The default `width=40` of `make_bar` in `gpu_watch_lite.py` and
`gpu_watch_windows.py`. -/
def barWidthDefault : Nat := 40

/-- The rendered bar of `make_bar`: number of filled glyphs, number of
empty glyphs, and the style color of the whole bar. -/
structure BarRender where
  filled : Nat
  empty : Nat
  color : Color
deriving DecidableEq

/-- `make_bar(value, width)` from `gpu_watch_lite.py` and
`gpu_watch_windows.py`:
`filled = int(value / 100 * width); bar = "█"*filled + "░"*(width-filled)`
(for a negative repeat count Python produces the empty string, matching
truncated `Nat` subtraction and `Int.toNat`). -/
def make_bar (value : ℚ) (width : Nat) : BarRender :=
  let filled := (pyInt (value / 100 * (width : ℚ))).toNat
  { filled := filled, empty := width - filled, color := loadColor value }

/-- `self.sparkline_chars = " ▁▂▃▄▅▆▇█"` of `gpu_watch_lite.py` and
`self.chars = " ▁▂▃▄▅▆▇█"` of `gpu_watch.py` (9 glyphs).  The
corresponding string in `gpu_watch_windows.py` is different: see
`sparkline_chars_windows`. -/
def sparkline_chars : List Char :=
  [' ', '▁', '▂', '▃', '▄', '▅', '▆', '▇', '█']

/-- `len(self.sparkline_chars) - 1` for the 9-glyph charset, the top
glyph index. -/
def sparkTop : Nat := sparkline_chars.length - 1

/-- `self.sparkline_chars` of `gpu_watch_windows.py` line 21: the file
holds a mojibake-corrupted copy of the 9-glyph string, and Python reads
it as this 24-character string — a space, the two-character sequence
`â–`, then seven three-character sequences `â–‚ â–ƒ â–„ â–… â–† â–‡ â–ˆ`
(the characters listed here are exactly the codepoints in the file). -/
def sparkline_chars_windows : List Char :=
  [' ', 'â', '–', 'â', '–', '‚', 'â', '–', 'ƒ', 'â', '–', '„', 'â', '–', '…',
   'â', '–', '†', 'â', '–', '‡', 'â', '–', 'ˆ']

/-- `len(self.sparkline_chars) - 1` in `gpu_watch_windows.py` = 23. -/
def sparkTopWindows : Nat := sparkline_chars_windows.length - 1

/-- One rendered sparkline slot: either the dim "no data" dash `─`
emitted by the all-zero branch, or a glyph index into
`sparkline_chars` together with its tier color. -/
inductive SparkCell
  | noData
  | glyph (idx : Nat) (color : Color)
deriving DecidableEq

/-- Python `max(values)` as used in the scripts: the guard `not values`
runs first, so the empty case is never reached there (we return 0). -/
def listMax : List ℚ → ℚ
  | [] => 0
  | h :: t => t.foldl max h

/-- `make_sparkline(values)` from `gpu_watch_lite.py`:
`if not values or max(values) == 0: return Text("─" * len(values))`,
otherwise per value `idx = min(int(norm * (len(chars)-1)), len(chars)-1)`
with `norm = val / max_val`, colored by the load tier. -/
def make_sparkline (values : List ℚ) : List SparkCell :=
  if values = [] ∨ listMax values = 0 then
    values.map (fun _ => SparkCell.noData)
  else
    values.map (fun val =>
      SparkCell.glyph
        (min (pyInt (val / listMax values * (sparkTop : ℚ))) (sparkTop : Int)).toNat
        (loadColor val))

/-- `Sparkline.render` from `gpu_watch.py`:
`if not self.values: return ""`;
`max_val = max(self.values) if max(self.values) > 0 else 1`; then the
same per-value glyph computation as `make_sparkline`. -/
def sparklineRender (values : List ℚ) : List SparkCell :=
  if values = [] then []
  else
    let max_val := if listMax values > 0 then listMax values else 1
    values.map (fun val =>
      SparkCell.glyph
        (min (pyInt (val / max_val * (sparkTop : ℚ))) (sparkTop : Int)).toNat
        (loadColor val))

/-- `make_sparkline(values)` from `gpu_watch_windows.py`: the same code
as the lite function, but over that file's 24-character
`sparkline_chars_windows`, so `len(self.sparkline_chars) - 1 = 23` and
there are 24 glyph levels; the zero-maximum branch repeats the mojibake
three-character dash sequence `â”€` once per slot (modelled, like the
lite dash, as one `noData` cell per slot). -/
def make_sparkline_windows (values : List ℚ) : List SparkCell :=
  if values = [] ∨ listMax values = 0 then
    values.map (fun _ => SparkCell.noData)
  else
    values.map (fun val =>
      SparkCell.glyph
        (min (pyInt (val / listMax values * (sparkTopWindows : ℚ)))
          (sparkTopWindows : Int)).toNat
        (loadColor val))

/-- `self.history_size = 60` in `gpu_watch_lite.py` and
`gpu_watch_windows.py` (the capacity passed as `maxlen` to every
history deque, and as `max_points` to each `Sparkline` in
`gpu_watch.py`). -/
def history_size : Nat := 60

/-- One `deque.append` on a deque constructed with `maxlen`: the new
value goes to the right and, when the buffer would exceed `maxlen`,
elements are discarded from the left. -/
def dequeAppend (maxlen : Nat) (buf : List ℚ) (v : ℚ) : List ℚ :=
  let buf2 := buf ++ [v]
  buf2.drop (buf2.length - maxlen)

/-- `deque([0] * self.history_size, maxlen=self.history_size)`:
the all-zero initial contents of each history series. -/
def initHistory (maxlen : Nat) : List ℚ := List.replicate maxlen 0

/-- The history series obtained by appending the samples `xs` in order
to a freshly initialized series (one `append` per poll, as in
`get_gpu_info` / `add_value`). -/
def recordAll (maxlen : Nat) (xs : List ℚ) : List ℚ :=
  xs.foldl (dequeAppend maxlen) (initHistory maxlen)

/-- One comma-separated field of a `nvidia-smi` output line, as the
parser in `WindowsGPUMonitor.get_gpu_info` distinguishes them:
a numeric token (accepted by the applied `float`/`int` conversion),
the literal sentinel `"[N/A]"`, the literal sentinel
`"[Unknown Error]"`, or any other non-numeric string. -/
inductive RawField
  | num (q : ℚ)
  | na
  | unknownError
  | text (s : String)
deriving DecidableEq

/-- Python `float(s)` (or `int(s)` on an integer token): succeeds
exactly on a numeric token, raises `ValueError` otherwise. -/
def pyFloat : RawField → Option ℚ
  | RawField.num q => some q
  | _ => none

/-- The expression `float(parts[k]) if parts[k] != "[N/A]" else 0`
used for every metric field except fan speed. -/
def floatOrNA (f : RawField) : Option ℚ :=
  if f = RawField.na then some 0 else pyFloat f

/-- The fan-speed expression
`float(parts[12]) if parts[12] != "[N/A]" and parts[12] != "[Unknown Error]" else 0`. -/
def floatFanField (f : RawField) : Option ℚ :=
  if f ≠ RawField.na ∧ f ≠ RawField.unknownError then pyFloat f else some 0

/-- The per-device snapshot dictionary built by
`WindowsGPUMonitor.get_gpu_info` (all numeric values as rationals;
`name` is `parts[1]`, stored without conversion). -/
structure GpuInfo where
  index : ℚ
  name : RawField
  gpu_util : ℚ
  mem_util : ℚ
  mem_used : ℚ
  mem_total : ℚ
  temp : ℚ
  power : ℚ
  power_limit : ℚ
  gpu_clock : ℚ
  mem_clock : ℚ
  fan_speed : ℚ
  mem_percent : ℚ
deriving DecidableEq

/-- The body of the per-line loop of `WindowsGPUMonitor.get_gpu_info`:
a line with fewer than 13 fields is not parsed at all (`if len(parts)
>= 13`); inside the `try`, any `ValueError` makes the whole line be
skipped (`except ... continue`), which the `Option` monad models;
`power_limit` falls back from `parts[8]` to `parts[9]` when the first
is zero; `mem_percent` is guarded by `mem_total > 0`. -/
def parseGpuLine (parts : List RawField) : Option GpuInfo :=
  if parts.length ≥ 13 then do
    let pl0 ← floatOrNA (parts.getD 8 (RawField.text ""))
    let power_limit ←
      if pl0 = 0 then floatOrNA (parts.getD 9 (RawField.text "")) else pure pl0
    let index ← pyFloat (parts.getD 0 (RawField.text ""))
    let gpu_util ← floatOrNA (parts.getD 2 (RawField.text ""))
    let mem_util ← floatOrNA (parts.getD 3 (RawField.text ""))
    let mem_used ← floatOrNA (parts.getD 4 (RawField.text ""))
    let mem_total ← floatOrNA (parts.getD 5 (RawField.text ""))
    let temp ← floatOrNA (parts.getD 6 (RawField.text ""))
    let power ← floatOrNA (parts.getD 7 (RawField.text ""))
    let gpu_clock ← floatOrNA (parts.getD 10 (RawField.text ""))
    let mem_clock ← floatOrNA (parts.getD 11 (RawField.text ""))
    let fan_speed ← floatFanField (parts.getD 12 (RawField.text ""))
    let mem_percent := if mem_total > 0 then mem_used / mem_total * 100 else 0
    pure { index := index, name := parts.getD 1 (RawField.text ""),
           gpu_util := gpu_util, mem_util := mem_util, mem_used := mem_used,
           mem_total := mem_total, temp := temp, power := power,
           power_limit := power_limit, gpu_clock := gpu_clock,
           mem_clock := mem_clock, fan_speed := fan_speed,
           mem_percent := mem_percent }
  else none

/-- The whole parsing loop of `WindowsGPUMonitor.get_gpu_info` over the
split output lines: lines that fail to parse are skipped, the rest are
collected in order. -/
def get_gpu_info (lines : List (List RawField)) : List GpuInfo :=
  lines.filterMap parseGpuLine

/-- A 13-field line whose `utilization.gpu` field (position 2) is the
`[Unknown Error]` sentinel and whose other fields are all well formed. -/
def ueLine : List RawField :=
  [RawField.num 0, RawField.text "NVIDIA GeForce RTX 3080", RawField.unknownError,
   RawField.num 5, RawField.num 2048, RawField.num 10240, RawField.num 55,
   RawField.num 120, RawField.num 320, RawField.num 350, RawField.num 1800,
   RawField.num 9500, RawField.num 40]

/-- One process entry as built by `WindowsGPUMonitor.get_processes`
(all fields are strings taken from the CSV output). -/
structure ProcEntry where
  gpu : String
  pid : String
  name : String
  memory : String
deriving DecidableEq

/-- One row of the rendered process table: either the explicit
placeholder row `("—", "No active GPU processes", "—")` or a row built
from one process entry. -/
inductive ProcRow
  | placeholder
  | entry (pid name memory : String)
deriving DecidableEq

/-- The rows added by `WindowsGPUMonitor.create_process_table`:
`if not processes: table.add_row(placeholder) else: one add_row per proc`. -/
def create_process_table (processes : List ProcEntry) : List ProcRow :=
  if processes = [] then [ProcRow.placeholder]
  else processes.map (fun p => ProcRow.entry p.pid p.name p.memory)

/-- One frame produced by `WindowsGPUMonitor.generate_layout`: the
inline error panel `Panel("[red]Error reading GPU data[/red]")` or a
normal layout carrying the device snapshots and process-table rows. -/
inductive Frame
  | errorFrame
  | normalFrame (gpus : List GpuInfo) (procRows : List ProcRow)
deriving DecidableEq

/-- `WindowsGPUMonitor.generate_layout` with the backend results of the
current cycle passed explicitly: `gpus = self.get_gpu_info(); if not
gpus: return Panel(error)` (this covers both a failed query, `None`,
and an empty list), otherwise the normal layout is composed. -/
def generate_layout (pollResult : Option (List GpuInfo)) (processes : List ProcEntry) :
    Frame :=
  match pollResult with
  | none => Frame.errorFrame
  | some gpus =>
    if gpus = [] then Frame.errorFrame
    else Frame.normalFrame gpus (create_process_table processes)

/-- The refresh loop of `WindowsGPUMonitor.run`:
`while True: live.update(self.generate_layout())` — one frame per
cycle, with the backend results of each cycle supplied as one list element. -/
def runCycles (polls : List (Option (List GpuInfo) × List ProcEntry)) : List Frame :=
  polls.map (fun c => generate_layout c.1 c.2)

/-- Counts the backend shutdown calls made on a session trace. -/
structure NvmlTrace where
  shutdownCalls : Nat
deriving DecidableEq

/-- One `pynvml.nvmlShutdown()` call: it is counted, and it either
succeeds or raises (`fails`). -/
def nvmlShutdownCall (t : NvmlTrace) (fails : Bool) : NvmlTrace × Except String Unit :=
  (⟨t.shutdownCalls + 1⟩,
   if fails then Except.error "NVML_ERROR_UNINITIALIZED" else Except.ok ())

/-- `GPUWatchApp.on_unmount` from `gpu_watch.py`:
`try: pynvml.nvmlShutdown() except: pass` — the call is made once and
any exception is swallowed. -/
def on_unmount (t : NvmlTrace) (fails : Bool) : NvmlTrace × Except String Unit :=
  let r := nvmlShutdownCall t fails
  (r.1, match r.2 with | _ => Except.ok ())

/-- The shutdown path of `GPUMonitor.run` in `gpu_watch_lite.py`:
`finally: pynvml.nvmlShutdown()` — the call is made once with no
surrounding handler, so its outcome is the outcome of the path. -/
def liteRunShutdown (t : NvmlTrace) (fails : Bool) : NvmlTrace × Except String Unit :=
  nvmlShutdownCall t fails

/-- `power_percent = (power / power_limit * 100) if power_limit > 0 else 0`
from `GPUCard.update_gpu_info` in `gpu_watch.py`. -/
def powerPercentCard (power power_limit : ℚ) : ℚ :=
  if power_limit > 0 then power / power_limit * 100 else 0

/-- The power row of `GPUMonitor.create_gpu_panel` in
`gpu_watch_lite.py`: rendered (with its bar) only under
`if info["power_limit"] > 0`, otherwise no power row is added. -/
def litePowerRow (power power_limit : ℚ) : Option (BarRender × ℚ × ℚ) :=
  if power_limit > 0 then
    some (make_bar (power / power_limit * 100) 40, power, power_limit)
  else none

/-- The power row of `WindowsGPUMonitor.create_gpu_panel`. -/
inductive PowerRow
  | bar (b : BarRender) (power power_limit : ℚ)
  | plain (power : ℚ)
  | absent
deriving DecidableEq

/-- The power row of `WindowsGPUMonitor.create_gpu_panel` in
`gpu_watch_windows.py`: `if power_limit > 0:` bar row,
`elif power > 0:` plain wattage text, else no row. -/
def windowsPowerRow (power power_limit : ℚ) : PowerRow :=
  if power_limit > 0 then
    PowerRow.bar (make_bar (power / power_limit * 100) 40) power power_limit
  else if power > 0 then PowerRow.plain power
  else PowerRow.absent


/-! ### Helper lemmas -/

lemma drop_sub_append (m : Nat) (p q : List ℚ) (h : m ≤ q.length) :
    (p ++ q).drop ((p ++ q).length - m) = q.drop (q.length - m) := by
  have e : (p ++ q).length - m = p.length + (q.length - m) := by
    simp only [List.length_append]
    omega
  rw [e, List.drop_append]

lemma dequeAppend_eq (m : Nat) (buf : List ℚ) (v : ℚ) :
    dequeAppend m buf v = (buf ++ [v]).drop ((buf ++ [v]).length - m) := rfl

lemma length_dequeAppend_le (m : Nat) (buf : List ℚ) (v : ℚ) :
    (dequeAppend m buf v).length ≤ m := by
  simp only [dequeAppend, List.length_drop]
  omega

lemma foldl_dequeAppend (m : Nat) (xs : List ℚ) :
    ∀ buf : List ℚ, buf.length ≤ m →
      xs.foldl (dequeAppend m) buf = (buf ++ xs).drop ((buf ++ xs).length - m) := by
  induction xs with
  | nil =>
    intro buf h
    simp [Nat.sub_eq_zero_of_le h]
  | cons v xs ih =>
    intro buf h
    rw [List.foldl_cons, ih (dequeAppend m buf v) (length_dequeAppend_le m buf v)]
    by_cases hm : m ≤ (buf ++ [v]).length
    · have hsplit : buf ++ v :: xs =
          (buf ++ [v]).take ((buf ++ [v]).length - m) ++ (dequeAppend m buf v ++ xs) := by
        rw [dequeAppend_eq, ← List.append_assoc, List.take_append_drop]
        simp
      have hq : m ≤ (dequeAppend m buf v ++ xs).length := by
        rw [dequeAppend_eq, List.length_append, List.length_drop]
        omega
      calc (dequeAppend m buf v ++ xs).drop ((dequeAppend m buf v ++ xs).length - m)
          = ((buf ++ [v]).take ((buf ++ [v]).length - m) ++ (dequeAppend m buf v ++ xs)).drop
              (((buf ++ [v]).take ((buf ++ [v]).length - m) ++
                 (dequeAppend m buf v ++ xs)).length - m) :=
            (drop_sub_append m _ _ hq).symm
        _ = (buf ++ v :: xs).drop ((buf ++ v :: xs).length - m) := by rw [← hsplit]
    · push_neg at hm
      have h0 : (buf ++ [v]).length - m = 0 := by omega
      rw [dequeAppend_eq, h0, List.drop_zero, List.append_assoc]
      simp

lemma foldl_max_le (l : List ℚ) : ∀ a : ℚ, (∀ v ∈ l, v ≤ a) → l.foldl max a = a := by
  induction l with
  | nil => intro a _; rfl
  | cons x t ih =>
    intro a hv
    rw [List.foldl_cons, max_eq_left (hv x (by simp))]
    exact ih a fun v hv2 => hv v (by simp [hv2])

lemma listMax_allzero (values : List ℚ) (h : ∀ v ∈ values, v = 0) :
    listMax values = 0 := by
  cases values with
  | nil => rfl
  | cons x t =>
    have hx : x = 0 := h x (by simp)
    show t.foldl max x = 0
    rw [hx]
    exact foldl_max_le t 0 fun v hv => le_of_eq (h v (by simp [hv]))

lemma map_const_replicate {α β : Type _} (l : List α) (c : β) :
    l.map (fun _ => c) = List.replicate l.length c := by
  induction l with
  | nil => rfl
  | cons x t ih => simp [ih, List.replicate_succ]

/-! ### Claim theorems -/

/-- C1: for every sequence of record/append operations on a history series,
the series length never exceeds the configured capacity (default 60:
`history_size = 60`), and after more than `capacity` appends the series
contains exactly the most recent `capacity` values oldest-to-newest
(FIFO eviction of the oldest sample). -/
theorem history_ring_buffer (cap : Nat) (xs : List ℚ) :
    (recordAll cap xs).length ≤ cap ∧
    history_size = 60 ∧
    (cap < xs.length → recordAll cap xs = xs.drop (xs.length - cap)) := by
  have hinit : (initHistory cap).length ≤ cap := by simp [initHistory]
  have hfold := foldl_dequeAppend cap xs (initHistory cap) hinit
  refine ⟨?_, rfl, ?_⟩
  · rw [recordAll, hfold]
    simp only [List.length_drop]
    omega
  · intro hlen
    rw [recordAll, hfold, initHistory]
    exact drop_sub_append cap (List.replicate cap 0) xs (le_of_lt hlen)

theorem history_ring_buffer_witness :
    2 < [(5 : ℚ), 6, 7].length ∧
    recordAll 2 [(5 : ℚ), 6, 7] = [(5 : ℚ), 6, 7].drop ([(5 : ℚ), 6, 7].length - 2) :=
  ⟨by decide, (history_ring_buffer 2 [5, 6, 7]).2.2 (by decide)⟩

/-- C2: the three-tier classification used for utilization, memory% and
power% is critical iff `v > 80`, warning iff `50 < v ≤ 80`, nominal iff
`v ≤ 50`; for temperature the pair is (65, 80): critical iff `v > 80`,
warning iff `65 < v ≤ 80`, nominal iff `v ≤ 65`. -/
theorem tier_thresholds (v : ℚ) (w : Nat) :
    (make_bar v w).color = loadColor v ∧
    (loadColor v = Color.red ↔ 80 < v) ∧
    (loadColor v = Color.yellow ↔ 50 < v ∧ v ≤ 80) ∧
    (loadColor v = Color.green ↔ v ≤ 50) ∧
    (tempColor v = Color.red ↔ 80 < v) ∧
    (tempColor v = Color.yellow ↔ 65 < v ∧ v ≤ 80) ∧
    (tempColor v = Color.green ↔ v ≤ 65) := by
  refine ⟨rfl, ?_, ?_, ?_, ?_, ?_, ?_⟩ <;>
    simp only [loadColor, tempColor] <;>
    split_ifs <;>
    simp_all <;>
    linarith

/-- C3: for every history series whose samples are all zero (in
particular the all-zero initial series), sparkline rendering takes the
guarded zero-maximum branch (no division by zero is reachable) and
produces one uniform flat glyph for every slot: the dim `─` dash in
`make_sparkline`, the blank level-0 glyph in `Sparkline.render`. -/
theorem sparkline_allzero_flat (values : List ℚ) (h : ∀ v ∈ values, v = 0) :
    make_sparkline values = List.replicate values.length SparkCell.noData ∧
    sparklineRender values = List.replicate values.length (SparkCell.glyph 0 Color.green) := by
  have hmax := listMax_allzero values h
  constructor
  · rw [make_sparkline, if_pos (Or.inr hmax)]
    exact map_const_replicate values _
  · rcases hv : values with _ | ⟨x, t⟩
    · rfl
    · rw [hv] at hmax h
      rw [sparklineRender, if_neg (by simp)]
      have hmv : (if listMax (x :: t) > 0 then listMax (x :: t) else 1) = 1 := by
        rw [hmax]
        norm_num
      rw [hmv]
      rw [List.map_congr_left (g := fun _ => SparkCell.glyph 0 Color.green) ?_]
      · exact map_const_replicate (x :: t) _
      · intro v hvmem
        have hv0 : v = 0 := h v hvmem
        rw [hv0]
        norm_num [pyInt, sparkTop, sparkline_chars, loadColor]

theorem sparkline_allzero_flat_witness :
    make_sparkline [0, 0, 0] = List.replicate 3 SparkCell.noData ∧
    sparklineRender [0, 0, 0] = List.replicate 3 (SparkCell.glyph 0 Color.green) :=
  sparkline_allzero_flat [0, 0, 0] (by decide)

/-- C5 counterexample: the claim says every sparkline variant maps a
sample to glyph level `floor(v / m * 8)` clamped to `[0, 8]`, one of
exactly 9 glyph levels — but the `gpu_watch_windows.py` variant it
cites reads that file's mojibake 24-character `sparkline_chars`, so on
the series `[1, 2]` it computes levels `min(int(1/2 * 23), 23) = 11`
and `23`, not the claimed `floor(1/2 * 8) = 4` and `8`. -/
theorem windows_sparkline_not_nine_levels :
    sparkline_chars_windows.length = 24 ∧
    make_sparkline_windows [(1 : ℚ), 2] =
      [SparkCell.glyph 11 Color.green, SparkCell.glyph 23 Color.green] ∧
    make_sparkline_windows [(1 : ℚ), 2] ≠
      [SparkCell.glyph 4 Color.green, SparkCell.glyph 8 Color.green] := by
  have hl : listMax [(1 : ℚ), 2] = 2 := by decide
  have he : make_sparkline_windows [(1 : ℚ), 2] =
      [SparkCell.glyph 11 Color.green, SparkCell.glyph 23 Color.green] := by
    rw [make_sparkline_windows, if_neg (by decide), hl]
    norm_num [pyInt, sparkTopWindows, sparkline_chars_windows, loadColor]
    omega
  refine ⟨rfl, he, ?_⟩
  rw [he]
  decide

/-- C5 (amended): for every sample `v` of a series with positive
maximum `m` and nonnegative samples, the `gpu_watch_lite.py` and
`gpu_watch.py` sparklines map `v` to glyph level `floor(v / m * 8)`
clamped to `[0, 8]` — one of exactly 9 glyph levels (`sparkline_chars`
has 9 entries) — normalized against the current maximum of that series,
and `Sparkline.render` computes the same cells; the
`gpu_watch_windows.py` variant uses that file's mojibake 24-character
charset and therefore maps `v` to level `floor(v / m * 23)` clamped to
`[0, 23]`, one of 24 glyph levels, with the same per-series
normalization. -/
theorem sparkline_levels (values : List ℚ) (hm : 0 < listMax values)
    (hv : ∀ v ∈ values, 0 ≤ v) :
    make_sparkline values =
      values.map (fun v =>
        SparkCell.glyph (min (max ⌊v / listMax values * 8⌋ 0) 8).toNat (loadColor v)) ∧
    sparkline_chars.length = 9 ∧
    sparklineRender values = make_sparkline values ∧
    make_sparkline_windows values =
      values.map (fun v =>
        SparkCell.glyph (min (max ⌊v / listMax values * 23⌋ 0) 23).toNat (loadColor v)) ∧
    sparkline_chars_windows.length = 24 := by
  have hne : values ≠ [] := by
    intro h0
    rw [h0] at hm
    exact absurd hm (by norm_num [listMax])
  have hmne : ¬(values = [] ∨ listMax values = 0) := by
    rintro (h0 | h0)
    · exact hne h0
    · rw [h0] at hm
      exact lt_irrefl 0 hm
  have h8q : ((sparkTop : Nat) : ℚ) = 8 := by norm_num [sparkTop, sparkline_chars]
  have h8i : ((sparkTop : Nat) : Int) = 8 := by norm_num [sparkTop, sparkline_chars]
  have h23q : ((sparkTopWindows : Nat) : ℚ) = 23 := by
    norm_num [sparkTopWindows, sparkline_chars_windows]
  have h23i : ((sparkTopWindows : Nat) : Int) = 23 := by
    norm_num [sparkTopWindows, sparkline_chars_windows]
  refine ⟨?_, rfl, ?_, ?_, rfl⟩
  · rw [make_sparkline, if_neg hmne]
    refine List.map_congr_left ?_
    intro v hvmem
    have h0v : 0 ≤ v := hv v hvmem
    have hq : (0 : ℚ) ≤ v / listMax values * ((sparkTop : Nat) : ℚ) :=
      mul_nonneg (div_nonneg h0v hm.le) (Nat.cast_nonneg _)
    have hfl : 0 ≤ ⌊v / listMax values * (8 : ℚ)⌋ :=
      Int.floor_nonneg.mpr (by rw [← h8q]; exact hq)
    rw [pyInt, if_pos hq, h8q, h8i, max_eq_left hfl]
  · rw [sparklineRender, if_neg hne, make_sparkline, if_neg hmne]
    rw [if_pos hm]
  · rw [make_sparkline_windows, if_neg hmne]
    refine List.map_congr_left ?_
    intro v hvmem
    have h0v : 0 ≤ v := hv v hvmem
    have hq : (0 : ℚ) ≤ v / listMax values * ((sparkTopWindows : Nat) : ℚ) :=
      mul_nonneg (div_nonneg h0v hm.le) (Nat.cast_nonneg _)
    have hfl : 0 ≤ ⌊v / listMax values * (23 : ℚ)⌋ :=
      Int.floor_nonneg.mpr (by rw [← h23q]; exact hq)
    rw [pyInt, if_pos hq, h23q, h23i, max_eq_left hfl]

theorem sparkline_levels_witness :
    0 < listMax [(1 : ℚ), 2] ∧
    make_sparkline [(1 : ℚ), 2] =
      [SparkCell.glyph 4 Color.green, SparkCell.glyph 8 Color.green] ∧
    sparklineRender [(1 : ℚ), 2] = make_sparkline [(1 : ℚ), 2] ∧
    make_sparkline_windows [(1 : ℚ), 2] =
      [SparkCell.glyph 11 Color.green, SparkCell.glyph 23 Color.green] := by
  have h := sparkline_levels [(1 : ℚ), 2] (by decide) (by decide)
  have hl : listMax [(1 : ℚ), 2] = 2 := by decide
  refine ⟨by decide, h.1.trans ?_, h.2.2.1, h.2.2.2.1.trans ?_⟩
  · rw [hl]
    norm_num [loadColor]
    omega
  · rw [hl]
    norm_num [loadColor]
    omega

/-- C4: bar rendering is monotonic (for `0 ≤ v1 < v2 ≤ 100` the filled
count for `v1` is at most that for `v2`), the tier boundaries are exact
(the value 80 is not critical, 81 is), and with the default width of 40
cells the filled and empty glyph counts always total the width. -/
theorem bar_monotone_bounds :
    (∀ (w : Nat) (v1 v2 : ℚ), 0 ≤ v1 → v1 < v2 → v2 ≤ 100 →
       (make_bar v1 w).filled ≤ (make_bar v2 w).filled) ∧
    (make_bar 80 barWidthDefault).color ≠ Color.red ∧
    (make_bar 81 barWidthDefault).color = Color.red ∧
    (∀ v : ℚ, 0 ≤ v → v ≤ 100 →
       (make_bar v barWidthDefault).filled + (make_bar v barWidthDefault).empty =
         barWidthDefault) ∧
    barWidthDefault = 40 := by
  have efill : ∀ (v : ℚ) (w : Nat),
      (make_bar v w).filled = (pyInt (v / 100 * (w : ℚ))).toNat := fun _ _ => rfl
  have eempty : ∀ (v : ℚ) (w : Nat),
      (make_bar v w).empty = w - (make_bar v w).filled := fun _ _ => rfl
  refine ⟨?_, by decide, by decide, ?_, rfl⟩
  · intro w v1 v2 h0 h12 _
    rw [efill, efill]
    apply Int.toNat_le_toNat
    have h1 : (0 : ℚ) ≤ v1 / 100 * (w : ℚ) :=
      mul_nonneg (div_nonneg h0 (by norm_num)) (Nat.cast_nonneg w)
    have h2 : (0 : ℚ) ≤ v2 / 100 * (w : ℚ) :=
      mul_nonneg (div_nonneg (h0.trans h12.le) (by norm_num)) (Nat.cast_nonneg w)
    rw [pyInt, if_pos h1, pyInt, if_pos h2]
    apply Int.floor_le_floor
    gcongr
  · intro v h0 h100
    have hnn : (0 : ℚ) ≤ v / 100 * ((barWidthDefault : Nat) : ℚ) :=
      mul_nonneg (div_nonneg h0 (by norm_num)) (Nat.cast_nonneg _)
    have hle : (make_bar v barWidthDefault).filled ≤ barWidthDefault := by
      rw [efill, pyInt, if_pos hnn, Int.toNat_le]
      calc ⌊v / 100 * ((barWidthDefault : Nat) : ℚ)⌋
          ≤ ⌊((barWidthDefault : Nat) : ℚ)⌋ := by
            apply Int.floor_le_floor
            have hb : ((barWidthDefault : Nat) : ℚ) = 40 := by
              norm_num [barWidthDefault]
            rw [hb]
            linarith
        _ = (barWidthDefault : Int) := Int.floor_natCast _
    rw [eempty]
    omega

theorem bar_monotone_bounds_witness :
    (0 : ℚ) ≤ 10 ∧ (10 : ℚ) < 90 ∧ (90 : ℚ) ≤ 100 ∧
    (make_bar 10 40).filled ≤ (make_bar 90 40).filled ∧
    (make_bar 55 barWidthDefault).filled + (make_bar 55 barWidthDefault).empty =
      barWidthDefault :=
  ⟨by norm_num, by norm_num, by norm_num,
   bar_monotone_bounds.1 40 10 90 (by norm_num) (by norm_num) (by norm_num),
   bar_monotone_bounds.2.2.2.1 55 (by norm_num) (by norm_num)⟩

/-- C6 counterexample: on a well-formed 13-field line whose
`utilization.gpu` field is the `[Unknown Error]` sentinel, the parser
does not map that field to zero and keep the rest of the line — in the
source `float("[Unknown Error]")` raises `ValueError` (only the
fan-speed field checks for that sentinel) and the `except` clause skips
the entire line, so the line contributes no snapshot at all. -/
theorem unknown_error_skips_line :
    ueLine.length = 13 ∧ parseGpuLine ueLine = none ∧ get_gpu_info [ueLine] = [] := by
  refine ⟨by decide, by decide, by decide⟩

/-- C6 (amended): a line with fewer than 13 comma-separated fields is
skipped and parsing continues with the remaining lines; within a
13-field line `[N/A]` is mapped to zero in each numeric metric field
(positions 2–12) without aborting the line, and `[Unknown Error]` is
mapped to zero only in the fan-speed field (position 12); in any other
parsed field `[Unknown Error]` makes the parse of that whole line fail, and
the line is skipped while parsing continues with the remaining lines. -/
theorem parse_line_sentinels :
    (∀ line rest, line.length < 13 → get_gpu_info (line :: rest) = get_gpu_info rest) ∧
    (∀ (i : ℚ) (nm : RawField),
       parseGpuLine
           ([RawField.num i, nm] ++ List.replicate 10 RawField.na ++
             [RawField.unknownError]) =
         some ⟨i, nm, 0, 0, 0, 0, 0, 0, 0, 0, 0, 0, 0⟩) ∧
    (∀ rest, get_gpu_info (ueLine :: rest) = get_gpu_info rest) := by
  refine ⟨?_, ?_, ?_⟩
  · intro line rest hlen
    have hp : parseGpuLine line = none := by
      rw [parseGpuLine, if_neg (by omega)]
    simp [get_gpu_info, hp]
  · intro i nm
    rfl
  · intro rest
    have hp : parseGpuLine ueLine = none := by decide
    simp [get_gpu_info, hp]

theorem parse_line_sentinels_witness :
    [RawField.num 1].length < 13 ∧
    get_gpu_info ([RawField.num 1] :: [ueLine]) = get_gpu_info [ueLine] ∧
    parseGpuLine
        ([RawField.num 7, RawField.text "GPU"] ++ List.replicate 10 RawField.na ++
          [RawField.unknownError]) =
      some ⟨7, RawField.text "GPU", 0, 0, 0, 0, 0, 0, 0, 0, 0, 0, 0⟩ ∧
    get_gpu_info (ueLine :: []) = get_gpu_info [] :=
  ⟨by decide,
   parse_line_sentinels.1 [RawField.num 1] [ueLine] (by decide),
   parse_line_sentinels.2.1 7 (RawField.text "GPU"),
   parse_line_sentinels.2.2 []⟩

/-- C7: if the poll on cycle `k` fails (the backend returns no usable
data), the frame for cycle `k` is the inline error panel, the loop
still produces one frame for every cycle, and cycle `k+1` produces
normal output when its own poll succeeds — a single bad sample never
terminates the session. -/
theorem sample_error_isolated
    (polls : List (Option (List GpuInfo) × List ProcEntry)) (k : Nat)
    (procs procs2 : List ProcEntry) (gpus : List GpuInfo)
    (hk : polls[k]? = some (none, procs))
    (hk1 : polls[k + 1]? = some (some gpus, procs2))
    (hg : gpus ≠ []) :
    (runCycles polls).length = polls.length ∧
    (runCycles polls)[k]? = some Frame.errorFrame ∧
    (runCycles polls)[k + 1]? =
      some (Frame.normalFrame gpus (create_process_table procs2)) := by
  refine ⟨by simp [runCycles], ?_, ?_⟩
  · rw [runCycles, List.getElem?_map, hk]
    rfl
  · rw [runCycles, List.getElem?_map, hk1]
    simp [generate_layout, hg]

/-- A concrete snapshot used to exercise `sample_error_isolated`. -/
def sampleGpu : GpuInfo :=
  ⟨0, RawField.text "GPU0", 10, 0, 0, 0, 40, 0, 0, 0, 0, 0, 0⟩

theorem sample_error_isolated_witness :
    (runCycles [(none, []), (some [sampleGpu], [])]).length = 2 ∧
    (runCycles [(none, []), (some [sampleGpu], [])])[0]? = some Frame.errorFrame ∧
    (runCycles [(none, []), (some [sampleGpu], [])])[0 + 1]? =
      some (Frame.normalFrame [sampleGpu] (create_process_table [])) :=
  sample_error_isolated [(none, []), (some [sampleGpu], [])] 0 [] [] [sampleGpu]
    rfl rfl (by decide)

/-- C8: for every process list given to process-table rendering, the
empty list yields exactly one placeholder row (so "no processes" is
visually distinct from an empty table), and a list of N entries yields
exactly N rows, one per entry, in the order supplied. -/
theorem process_table_rows (ps : List ProcEntry) :
    (ps = [] → create_process_table ps = [ProcRow.placeholder]) ∧
    (ps ≠ [] →
      create_process_table ps = ps.map (fun p => ProcRow.entry p.pid p.name p.memory) ∧
      (create_process_table ps).length = ps.length) := by
  constructor
  · intro h
    rw [h]
    rfl
  · intro h
    rw [create_process_table, if_neg h]
    exact ⟨rfl, by simp⟩

theorem process_table_rows_witness :
    create_process_table [] = [ProcRow.placeholder] ∧
    create_process_table [⟨"0", "123", "python.exe", "512 MiB"⟩] =
      [ProcRow.entry "123" "python.exe" "512 MiB"] :=
  ⟨(process_table_rows []).1 rfl,
   ((process_table_rows [⟨"0", "123", "python.exe", "512 MiB"⟩]).2
      (by simp)).1⟩

/-- C9 counterexample: in `gpu_watch_lite.py` the session shutdown call
sits in a `finally:` block with no handler, so when `nvmlShutdown`
raises, the error propagates out of the shutdown path instead of being
swallowed — the claimed "shutdown failure never propagates" fails on
this variant. -/
theorem shutdown_error_escapes_lite :
    (liteRunShutdown ⟨0⟩ true).1.shutdownCalls = 1 ∧
    (liteRunShutdown ⟨0⟩ true).2 = Except.error "NVML_ERROR_UNINITIALIZED" ∧
    (liteRunShutdown ⟨0⟩ true).2 ≠ Except.ok () := by
  refine ⟨rfl, rfl, ?_⟩
  intro h
  exact Except.noConfusion h

/-- C9 (amended): each shutdown path makes exactly one backend shutdown
call per session; in the full app (`GPUWatchApp.on_unmount`) any error
from that call is swallowed, while in the lite variant
(the `finally:` block of `GPUMonitor.run`) the call has no handler, so its
error propagates out of the shutdown path unchanged. -/
theorem shutdown_once_swallow (t : NvmlTrace) (fails : Bool) :
    (on_unmount t fails).1.shutdownCalls = t.shutdownCalls + 1 ∧
    (on_unmount t fails).2 = Except.ok () ∧
    (liteRunShutdown t fails).1.shutdownCalls = t.shutdownCalls + 1 ∧
    (liteRunShutdown t fails).2 = (nvmlShutdownCall t fails).2 :=
  ⟨rfl, rfl, rfl, rfl⟩

/-- C10: the power percentage `power / power_limit * 100` is computed
only under the guard `power_limit > 0`; whenever `power_limit = 0` the
renderers substitute 0 (`gpu_watch.py`) or omit the power bar entirely
(`gpu_watch_lite.py`, `gpu_watch_windows.py`), so panel creation never
divides by a zero power limit. -/
theorem power_zero_limit_safe (power power_limit : ℚ) (h : power_limit = 0) :
    powerPercentCard power power_limit = 0 ∧
    litePowerRow power power_limit = none ∧
    windowsPowerRow power power_limit =
      (if power > 0 then PowerRow.plain power else PowerRow.absent) := by
  subst h
  refine ⟨?_, ?_, ?_⟩ <;> simp [powerPercentCard, litePowerRow, windowsPowerRow]

theorem power_zero_limit_safe_witness :
    powerPercentCard 50 0 = 0 ∧
    litePowerRow 50 0 = none ∧
    windowsPowerRow 50 0 = (if (50 : ℚ) > 0 then PowerRow.plain 50 else PowerRow.absent) :=
  power_zero_limit_safe 50 0 rfl
